import Mathlib

/- Shallow embedding of src/storage_data/connect.py (class Storage):
destination-key resolution, the single-object upload with its recursive
retry, the large-object upload, the batch upload and the download.
Collaborator effects (the storage client, the thread pool) are modelled
by explicit outcome functions and event traces. -/

/-- The Python module constant MEGA_BYTES = 1 << 20 (bytes in one MiB). -/
def MEGA_BYTES : Nat := 1 <<< 20

/-- A local path as Python pathlib.Path exposes it: its components. -/
structure PyPath where
  parts : List String
deriving DecidableEq, Repr

/-- str(file_path): the components joined by the separator. -/
def PyPath.str (p : PyPath) : String := String.intercalate "/" p.parts

/-- file_path.name: the final component (empty for an empty path). -/
def PyPath.name (p : PyPath) : String := p.parts.getLastD ""

/-- Python truthiness of an optional string: None and "" are falsy. -/
def truthy : Option String → Prop
  | none => False
  | some s => s ≠ ""

instance (o : Option String) : Decidable (truthy o) :=
  match o with
  | none => isFalse fun h => h
  | some s => inferInstanceAs (Decidable (s ≠ ""))

/-- The inner function blob_source_dest of Storage.upload_files
(connect.py lines 182-190), mapping a matched file path to the pair
(source, destination key).  Python's parts[-index_sub:] takes the last
index_sub components, or all of them when the path is shorter, which is
List.drop (length - index_sub). -/
def blob_source_dest (prefix_blob sub_path : Option String) (index_sub : Nat)
    (file_path : PyPath) : String × String :=
  if truthy prefix_blob then
    (file_path.str, prefix_blob.getD "")
  else if truthy sub_path ∧ 0 < index_sub then
    (file_path.str,
      (sub_path.getD "") ++ "/" ++
        String.intercalate "/" (file_path.parts.drop (file_path.parts.length - index_sub)))
  else
    (file_path.str, file_path.name)

deriving instance DecidableEq for Except

/-- Outcome of one attempt inside upload_file's try block: bucket.blob
raises, or blob.upload_from_filename raises, or both succeed. -/
inductive AttemptOutcome
  | blobRaises
  | putRaises
  | ok
deriving DecidableEq, Repr

/-- Exceptions that can escape the embedded functions: the NameError of
reading a never-bound local at a return statement, and the interpreter's
RecursionError when the recursion budget is exhausted. -/
inductive Err
  | nameError
  | recursionError
deriving DecidableEq, Repr

/-- The handle bucket.blob returns: destination name, the chunk_size it
was constructed with (in bytes) and the attempt that constructed it. -/
structure Blob where
  name : String
  chunk_size : Option Nat
  attempt : Nat
deriving DecidableEq, Repr

/-- Calls upload_file makes on the collaborator, tagged with the attempt
(recursion depth) that made them. -/
inductive Ev
  | blobCall (attempt : Nat) (dest : String) (chunk : Option Nat)
  | putCall (attempt : Nat) (source dest : String) (timeout : Nat)
deriving DecidableEq, Repr

/-- Is the event a put (blob.upload_from_filename) call? -/
def Ev.isPut : Ev → Bool
  | Ev.putCall _ _ _ _ => true
  | Ev.blobCall _ _ _ => false

/-- The attempt index an event was made at. -/
def Ev.attemptOf : Ev → Nat
  | Ev.blobCall k _ _ => k
  | Ev.putCall k _ _ _ => k

/-- Does the event carry the default arguments of upload_file — timeout
180 for a put call, chunk_size None for a blob call? -/
def Ev.usesDefaults : Ev → Bool
  | Ev.blobCall _ _ ch => ch == none
  | Ev.putCall _ _ _ tmo => tmo == 180

/-- Lines 124-125 of upload_file: if chunk_size: chunk_size =
MEGA_BYTES * chunk_size.  None and 0 are falsy and pass unchanged. -/
def convert_chunk : Option Nat → Option Nat
  | none => none
  | some c => if c = 0 then some 0 else some (MEGA_BYTES * c)

/-- Storage.upload_file (connect.py lines 115-144).  beh gives the
collaborator's outcome at each attempt; fuel is the interpreter's
remaining recursion budget (a call with none left raises RecursionError).
On any exception the except block re-invokes the function with timeout
and chunk_size omitted, so the retry runs with the defaults 180 and None
(line 142); the recursive call's value is discarded and the frame then
returns its own local blob, which raises NameError when this frame's
bucket.blob call had itself raised (line 144).  Returns the result or
the escaped exception, together with the trace of collaborator calls. -/
def upload_file (beh : Nat → AttemptOutcome) :
    Nat → Nat → String → String → Nat → Option Nat → Except Err Blob × List Ev
  | 0, _, _, _, _, _ => (Except.error Err.recursionError, [])
  | fuel + 1, n, src, dst, timeout, chunk_size =>
    let ch := convert_chunk chunk_size
    match beh n with
    | AttemptOutcome.ok =>
        (Except.ok (Blob.mk dst ch n),
          [Ev.blobCall n dst ch, Ev.putCall n src dst timeout])
    | AttemptOutcome.putRaises =>
        let r := upload_file beh fuel (n + 1) src dst 180 none
        (match r.1 with
          | Except.error e => Except.error e
          | Except.ok _ => Except.ok (Blob.mk dst ch n),
         Ev.blobCall n dst ch :: Ev.putCall n src dst timeout :: r.2)
    | AttemptOutcome.blobRaises =>
        let r := upload_file beh fuel (n + 1) src dst 180 none
        (match r.1 with
          | Except.error e => Except.error e
          | Except.ok _ => Except.error Err.nameError,
         Ev.blobCall n dst ch :: r.2)

/-- The arguments Storage.upload_large_file forwards to
transfer_manager.upload_chunks_concurrently (connect.py lines 157-162). -/
structure XferCall where
  source : String
  dest : String
  chunk_size : Nat
  workers : Nat
deriving DecidableEq, Repr

/-- The declared default of upload_large_file's chunk_size parameter
(connect.py line 151): MEGA_BYTES * 32, already a byte count. -/
def upload_large_file_default_chunk : Nat := MEGA_BYTES * 32

/-- Storage.upload_large_file (connect.py lines 146-165): builds the
blob with no chunk hint and passes source, blob, chunk_size and workers
through to the transfer manager unchanged — no unit conversion is
applied to chunk_size. -/
def upload_large_file (src dst : String) (chunk_size workers : Nat) :
    Blob × XferCall :=
  (Blob.mk dst none 0, XferCall.mk src dst chunk_size workers)

/-- Storage.upload_files (connect.py lines 167-216): maps each matched
file through blob_source_dest and runs
self.upload_file(bucket, source, destination) on it — timeout and
chunk_size take their defaults (lines 192-200).  The matched files
(path.glob(pattern)) and each task's collaborator outcomes are
parameters; one entry per task in submission order, an entry being the
task's returned value or its escaped exception, which executor.map
stores and re-raises when that entry of the result iterator is
consumed. -/
def upload_files (behs : Nat → Nat → AttemptOutcome) (fuel : Nat)
    (prefix_blob sub_path : Option String) (index_sub : Nat)
    (paths : List PyPath) : List (Except Err Blob) :=
  paths.enum.map (fun ip =>
    let sd := blob_source_dest prefix_blob sub_path index_sub ip.2
    (upload_file (behs ip.1) fuel 0 sd.1 sd.2 180 none).1)

/-- Outcome of bucket.get_blob: it raises, returns None (no such
object), or returns a blob of the given size. -/
inductive GetResult
  | raises
  | missing
  | found (size : Nat)
deriving DecidableEq, Repr

/-- Calls download_file makes on the collaborator. -/
inductive DlEv
  | getBlobCall (name : String)
  | downloadCall (dest : String)
deriving DecidableEq, Repr

/-- Is the event a get_blob call? -/
def DlEv.isGet : DlEv → Bool
  | DlEv.getBlobCall _ => true
  | DlEv.downloadCall _ => false

/-- Is the event a download_to_filename call? -/
def DlEv.isDownload : DlEv → Bool
  | DlEv.downloadCall _ => true
  | DlEv.getBlobCall _ => false

/-- Storage.download_file (connect.py lines 248-268).  downloadOk says
whether blob.download_to_filename succeeds.  When get_blob returns None,
blob.size raises AttributeError, which the except swallows, and the
final return yields None; when only the download step fails, the except
swallows it too and the function still returns the blob obtained from
get_blob, exactly as on success; when get_blob itself raises, the local
blob is never bound and the final return raises NameError. -/
def download_file (g : GetResult) (downloadOk : Bool)
    (source_blob_name destination_file_name : String) :
    Except Err (Option Nat) × List DlEv :=
  match g with
  | GetResult.raises =>
      (Except.error Err.nameError, [DlEv.getBlobCall source_blob_name])
  | GetResult.missing =>
      (Except.ok none, [DlEv.getBlobCall source_blob_name])
  | GetResult.found size =>
      if downloadOk then
        (Except.ok (some size),
          [DlEv.getBlobCall source_blob_name,
            DlEv.downloadCall destination_file_name])
      else
        (Except.ok (some size),
          [DlEv.getBlobCall source_blob_name,
            DlEv.downloadCall destination_file_name])

/-- Modelled from the spec: the worker pool of upload_files is Python's
ThreadPoolExecutor.map, standard-library code that is not part of src/.
Per spec section 4.4, each completed task writes the result slot of its
own index; pairs is the completion log, (task index, result) in
completion order, and the pool reads the slots back in index order. -/
def worker_pool_collect {β : Type} (pairs : List (Nat × β)) (len : Nat) :
    List (Option β) :=
  (List.range len).map (fun i => (pairs.find? (fun q => q.1 == i)).map (fun q => q.2))

/-- Modelled from the spec: running the pool under an arbitrary
completion schedule sched (the order in which workers finish task
indices), then collecting the slots in submission order. -/
def worker_pool_run {α β : Type} (f : α → β) (tasks : List α)
    (sched : List Nat) : List (Option β) :=
  worker_pool_collect
    (sched.filterMap (fun i => (tasks.get? i).map (fun a => (i, f a))))
    tasks.length

/-- Modelled from the spec: the chunk count of the large-object upload
is computed inside google-cloud-storage's
transfer_manager.upload_chunks_concurrently, which is not part of src/;
per spec section 4.3 it is ceil(totalSize / chunkSize), minimum 1. -/
def chunkCount (totalSize chunkSize : Nat) : Nat :=
  max 1 ((totalSize + chunkSize - 1) / chunkSize)

/-- Modelled from the spec: chunk i covers the byte range starting at
i * chunkSize with length chunkSize, clipped to the end of the object;
a range is the pair (offset, length). -/
def chunkRanges (totalSize chunkSize : Nat) : List (Nat × Nat) :=
  (List.range (chunkCount totalSize chunkSize)).map
    (fun i => (i * chunkSize, min chunkSize (totalSize - i * chunkSize)))

/-- Collaborator behavior whose first attempt's bucket.blob call raises
and whose later attempts succeed. -/
def beh10 : Nat → AttemptOutcome := fun n =>
  if n = 0 then AttemptOutcome.blobRaises else AttemptOutcome.ok

/-- Collaborator behavior whose first attempt's put raises and whose
later attempts succeed. -/
def beh9 : Nat → AttemptOutcome := fun n =>
  if n = 0 then AttemptOutcome.putRaises else AttemptOutcome.ok

/-- C4: with prefix_blob unset, sub_path a non-empty string and a positive
depth, the destination key is sub_path, a slash, and the last index_sub
components of the path joined by slashes (a suffix of min index_sub length
components); when the path has fewer components than the depth, all of its
components are used; when neither prefix_blob nor an applicable sub_path is
given, the key is the base name alone. -/
theorem C4_suffix_depth_key (s : String) (k : Nat) (p : PyPath)
    (hs : s ≠ "") (hk : 0 < k) :
    (∃ pre suf, p.parts = pre ++ suf ∧ suf.length = min k p.parts.length ∧
      (blob_source_dest none (some s) k p).2 = s ++ "/" ++ String.intercalate "/" suf)
  ∧ (p.parts.length ≤ k →
      (blob_source_dest none (some s) k p).2 = s ++ "/" ++ String.intercalate "/" p.parts)
  ∧ (∀ sp ip, ¬ truthy sp ∨ ip = 0 → (blob_source_dest none sp ip p).2 = p.name) := by
  have hdest : (blob_source_dest none (some s) k p).2
      = s ++ "/" ++ String.intercalate "/" (p.parts.drop (p.parts.length - k)) := by
    unfold blob_source_dest
    rw [if_neg (show ¬ truthy none from fun h => h),
      if_pos (show truthy (some s) ∧ 0 < k from ⟨hs, hk⟩)]
    rfl
  refine ⟨⟨p.parts.take (p.parts.length - k), p.parts.drop (p.parts.length - k),
      (List.take_append_drop _ _).symm, ?_, hdest⟩, ?_, ?_⟩
  · rw [List.length_drop]; omega
  · intro hlen
    rw [hdest]
    have h0 : p.parts.length - k = 0 := by omega
    rw [h0, List.drop_zero]
  · intro sp ip h
    unfold blob_source_dest
    have hneg : ¬ (truthy sp ∧ 0 < ip) := by
      rcases h with h | h
      · exact fun hc => h hc.1
      · intro hc; omega
    rw [if_neg (show ¬ truthy none from fun hh => hh), if_neg hneg]

theorem C4_witness :
    ("archive" ≠ "") ∧ 0 < 2
  ∧ (∃ pre suf, (["a", "b", "c", "d.txt"] : List String) = pre ++ suf ∧
      suf.length = min 2 (PyPath.mk ["a", "b", "c", "d.txt"]).parts.length ∧
      (blob_source_dest none (some "archive") 2 (PyPath.mk ["a", "b", "c", "d.txt"])).2
        = "archive" ++ "/" ++ String.intercalate "/" suf)
  ∧ (blob_source_dest none none 4 (PyPath.mk ["a", "b", "c", "d.txt"])).2 = "d.txt" :=
  ⟨by decide, by decide,
    (C4_suffix_depth_key "archive" 2 (PyPath.mk ["a", "b", "c", "d.txt"])
      (by decide) (by decide)).1,
    (C4_suffix_depth_key "archive" 2 (PyPath.mk ["a", "b", "c", "d.txt"])
      (by decide) (by decide)).2.2 none 4 (Or.inl fun h => h)⟩

/-- C7: when prefix_blob is a non-empty string, the destination key is
prefix_blob itself for every file, whatever sub_path and index_sub are. -/
theorem C7_prefix_collapses (pb : String) (hpb : pb ≠ "")
    (sp : Option String) (ip : Nat) (p : PyPath) :
    (blob_source_dest (some pb) sp ip p).2 = pb := by
  unfold blob_source_dest
  rw [if_pos (show truthy (some pb) from hpb)]
  rfl

theorem C7_witness :
    ("backup.bin" ≠ "")
  ∧ (blob_source_dest (some "backup.bin") (some "archive") 4
      (PyPath.mk ["a", "b", "c.txt"])).2 = "backup.bin"
  ∧ (blob_source_dest (some "backup.bin") none 4
      (PyPath.mk ["x.csv"])).2 = "backup.bin" :=
  ⟨by decide,
    C7_prefix_collapses "backup.bin" (by decide) (some "archive") 4
      (PyPath.mk ["a", "b", "c.txt"]),
    C7_prefix_collapses "backup.bin" (by decide) none 4 (PyPath.mk ["x.csv"])⟩

/-- C1: with a collaborator put that fails on every invocation,
Storage.upload_file does not stop after 2 attempts and produces no
Failure value: every failure re-invokes the whole function, so with
recursion budget 5 it makes 5 put attempts — a third attempt does occur
— and ends with an escaped RecursionError. -/
theorem C1_unbounded_recursive_retry :
    (upload_file (fun _ => AttemptOutcome.putRaises) 5 0 "s" "d" 180 none).1
        = Except.error Err.recursionError
  ∧ (upload_file (fun _ => AttemptOutcome.putRaises) 5 0 "s" "d" 180 none).2.countP
        Ev.isPut = 5
  ∧ ¬ (upload_file (fun _ => AttemptOutcome.putRaises) 5 0 "s" "d" 180 none).2.countP
        Ev.isPut = 2 := by decide

/-- Every collaborator call in a run of upload_file that was itself
invoked with the default arguments (timeout 180, chunk_size None)
carries those defaults, recursively. -/
theorem upload_trace_defaults (beh : Nat → AttemptOutcome) (fuel : Nat) :
    ∀ n src dst ev, ev ∈ (upload_file beh fuel n src dst 180 none).2 →
      ev.usesDefaults = true := by
  induction fuel with
  | zero =>
    intro n src dst ev h
    simp [upload_file] at h
  | succ f ih =>
    intro n src dst ev h
    cases hb : beh n <;> simp only [upload_file, hb, convert_chunk] at h
    case blobRaises =>
      simp only [List.mem_cons] at h
      rcases h with h | h
      · subst h; rfl
      · exact ih (n + 1) src dst ev h
    case putRaises =>
      simp only [List.mem_cons] at h
      rcases h with h | h | h
      · subst h; rfl
      · subst h; rfl
      · exact ih (n + 1) src dst ev h
    case ok =>
      simp only [List.mem_cons, List.not_mem_nil, or_false] at h
      rcases h with h | h <;> subst h <;> rfl

/-- C9: the retry call of upload_file omits the caller's timeout and
chunk_size, so every collaborator call made after the first attempt uses
the default timeout 180 and no chunk-size hint, whatever t and c the
caller passed. -/
theorem C9_retry_uses_defaults (beh : Nat → AttemptOutcome) (fuel : Nat)
    (src dst : String) (t : Nat) (c : Option Nat) (ev : Ev)
    (hev : ev ∈ (upload_file beh fuel 0 src dst t c).2)
    (hpos : 0 < ev.attemptOf) :
    ev.usesDefaults = true := by
  cases fuel with
  | zero => simp [upload_file] at hev
  | succ f =>
    cases hb : beh 0 <;> simp only [upload_file, hb] at hev
    case blobRaises =>
      simp only [List.mem_cons] at hev
      rcases hev with h | h
      · subst h; simp [Ev.attemptOf] at hpos
      · exact upload_trace_defaults beh f 1 src dst ev h
    case putRaises =>
      simp only [List.mem_cons] at hev
      rcases hev with h | h | h
      · subst h; simp [Ev.attemptOf] at hpos
      · subst h; simp [Ev.attemptOf] at hpos
      · exact upload_trace_defaults beh f 1 src dst ev h
    case ok =>
      simp only [List.mem_cons, List.not_mem_nil, or_false] at hev
      rcases hev with h | h <;> subst h <;> simp [Ev.attemptOf] at hpos

theorem C9_witness :
    (Ev.putCall 1 "s" "d" 180 ∈ (upload_file beh9 3 0 "s" "d" 7 (some 9)).2
      ∧ 0 < (Ev.putCall 1 "s" "d" 180).attemptOf)
  ∧ (Ev.putCall 1 "s" "d" 180).usesDefaults = true :=
  ⟨⟨by decide, by decide⟩,
    C9_retry_uses_defaults beh9 3 "s" "d" 7 (some 9) (Ev.putCall 1 "s" "d" 180)
      (by decide) (by decide)⟩

/-- C10: when the first collaborator call inside the try block itself
raises — bucket.blob in upload_file, bucket.get_blob in download_file —
the local variable blob is never bound, and the function's final return
statement raises NameError instead of returning a result (for
upload_file, once the recursive retry returns normally). -/
theorem C10_unbound_local_nameError (beh : Nat → AttemptOutcome) (fuel : Nat)
    (src dst : String) (t : Nat) (c : Option Nat) (b : Blob)
    (hb : beh 0 = AttemptOutcome.blobRaises)
    (hr : (upload_file beh fuel 1 src dst 180 none).1 = Except.ok b) :
    (upload_file beh (fuel + 1) 0 src dst t c).1 = Except.error Err.nameError
  ∧ ∀ d sb df, (download_file GetResult.raises d sb df).1
      = Except.error Err.nameError := by
  constructor
  · simp only [upload_file, hb, hr]
  · intro d sb df; rfl

theorem C10_witness :
    beh10 0 = AttemptOutcome.blobRaises
  ∧ (upload_file beh10 2 1 "s" "d" 180 none).1 = Except.ok (Blob.mk "d" none 1)
  ∧ (upload_file beh10 3 0 "s" "d" 180 none).1 = Except.error Err.nameError
  ∧ (download_file GetResult.raises true "b" "f").1 = Except.error Err.nameError :=
  ⟨rfl, by decide,
    (C10_unbound_local_nameError beh10 2 "s" "d" 180 none (Blob.mk "d" none 1)
      rfl (by decide)).1,
    (C10_unbound_local_nameError beh10 2 "s" "d" 180 none (Blob.mk "d" none 1)
      rfl (by decide)).2 true "b" "f"⟩

/-- C5 (amended): upload_file's chunk_size is in MiB — a non-zero value
n is converted to MEGA_BYTES * n bytes before the collaborator blob
call — while upload_large_file's chunk_size is already a byte count: its
declared default is MEGA_BYTES * 32 and the value is handed to the
transfer manager unchanged, so passing n requests n-byte chunks. -/
theorem C5_chunk_units (beh : Nat → AttemptOutcome) (fuel : Nat)
    (src dst : String) (t n : Nat) (hn : n ≠ 0) :
    (upload_file beh (fuel + 1) 0 src dst t (some n)).2.head?
        = some (Ev.blobCall 0 dst (some (MEGA_BYTES * n)))
  ∧ (∀ s d cs w, (upload_large_file s d cs w).2.chunk_size = cs)
  ∧ upload_large_file_default_chunk = MEGA_BYTES * 32 := by
  refine ⟨?_, fun s d cs w => rfl, rfl⟩
  cases hb : beh 0 <;> simp [upload_file, hb, convert_chunk, hn]

/-- C5 counterexample: passing chunk_size 5 to upload_large_file
forwards 5 bytes to the collaborator, not 5 * 2 ^ 20 bytes as the claim
would require of a MiB-denominated parameter; the declared default is
the byte count 33554432 = 32 * 2 ^ 20. -/
theorem C5_counterexample :
    (upload_large_file "s" "d" 5 4).2.chunk_size = 5
  ∧ (5 : Nat) ≠ 5 * 2 ^ 20
  ∧ upload_large_file_default_chunk = 32 * 2 ^ 20 := by decide

theorem C5_witness :
    (5 : Nat) ≠ 0
  ∧ (upload_file (fun _ => AttemptOutcome.ok) 1 0 "s" "d" 180 (some 5)).2.head?
      = some (Ev.blobCall 0 "d" (some (MEGA_BYTES * 5))) :=
  ⟨by decide,
    (C5_chunk_units (fun _ => AttemptOutcome.ok) 0 "s" "d" 180 5 (by decide)).1⟩

/-- C6 (amended): download_file never retries — exactly one get_blob
call and at most one download call per invocation; but failures do not
become Failure values: a raising get_blob escapes as NameError, a
missing blob makes the function return None, and a failed download
returns the same blob as a successful one. -/
theorem C6_download_no_retry (g : GetResult) (d : Bool) (sb df : String) :
    (download_file g d sb df).2.countP DlEv.isGet = 1
  ∧ (download_file g d sb df).2.countP DlEv.isDownload ≤ 1
  ∧ (g = GetResult.raises →
      (download_file g d sb df).1 = Except.error Err.nameError)
  ∧ (g = GetResult.missing → (download_file g d sb df).1 = Except.ok none)
  ∧ (∀ sz, g = GetResult.found sz →
      (download_file g d sb df).1 = Except.ok (some sz)) := by
  cases g <;> cases d <;>
    simp [download_file, List.countP_cons, List.countP_nil, DlEv.isGet,
      DlEv.isDownload]

/-- C6 counterexample: when bucket.get_blob itself raises, download_file
does not yield a Failure outcome — a NameError escapes to the caller —
and when only the download step fails, the function returns exactly what
it returns on success rather than any Failure value. -/
theorem C6_counterexample :
    (download_file GetResult.raises true "b" "f").1 = Except.error Err.nameError
  ∧ (download_file (GetResult.found 10) false "b" "f").1 = Except.ok (some 10)
  ∧ (download_file (GetResult.found 10) false "b" "f").1
      = (download_file (GetResult.found 10) true "b" "f").1 := by decide

theorem C6_witness :
    (download_file GetResult.missing true "b" "f").2.countP DlEv.isGet = 1
  ∧ (download_file GetResult.missing true "b" "f").1 = Except.ok none :=
  ⟨(C6_download_no_retry GetResult.missing true "b" "f").1,
    (C6_download_no_retry GetResult.missing true "b" "f").2.2.2.1 rfl⟩

/-- C3 (amended): upload_files yields exactly one entry per matched
file, in submission order, and each entry is exactly its own task's
upload run with the default timeout and chunk hint — a failing task
never changes a sibling's entry; but a task whose put keeps failing
contributes an escaped exception (re-raised when the result iterator
reaches that entry), not a Failure value. -/
theorem C3_full_length_per_task (behs : Nat → Nat → AttemptOutcome)
    (fuel : Nat) (pb sp : Option String) (ix : Nat) (paths : List PyPath) :
    (upload_files behs fuel pb sp ix paths).length = paths.length
  ∧ ∀ i (hi : i < paths.length)
      (hi2 : i < (upload_files behs fuel pb sp ix paths).length),
      (upload_files behs fuel pb sp ix paths).get ⟨i, hi2⟩
        = (upload_file (behs i) fuel 0
            (blob_source_dest pb sp ix (paths.get ⟨i, hi⟩)).1
            (blob_source_dest pb sp ix (paths.get ⟨i, hi⟩)).2 180 none).1 := by
  constructor
  · simp [upload_files]
  · intro i hi hi2
    simp [upload_files, List.get_eq_getElem, List.getElem_map, List.getElem_enum]

/-- C3 counterexample: a batch whose single task's put fails on every
invocation produces an error entry — the exception escapes into the
result sequence and is raised when that entry is consumed — instead of
any Failure value. -/
theorem C3_counterexample :
    upload_files (fun _ _ => AttemptOutcome.putRaises) 3 none none 4
        [PyPath.mk ["f.txt"]]
      = [Except.error Err.recursionError] := by decide

theorem C3_witness :
    (upload_files (fun _ _ => AttemptOutcome.ok) 1 none none 4
        [PyPath.mk ["f.txt"]]).length = 1
  ∧ (upload_files (fun _ _ => AttemptOutcome.ok) 1 none none 4
        [PyPath.mk ["f.txt"]]).get ⟨0, by decide⟩
      = Except.ok (Blob.mk "f.txt" none 0) :=
  ⟨(C3_full_length_per_task (fun _ _ => AttemptOutcome.ok) 1 none none 4
      [PyPath.mk ["f.txt"]]).1,
    by
      have h := (C3_full_length_per_task (fun _ _ => AttemptOutcome.ok) 1 none
        none 4 [PyPath.mk ["f.txt"]]).2 0 (by decide) (by decide)
      rw [h]
      decide⟩

/-- Anything in the completion log is the value of its own task index. -/
theorem worker_pairs_mem {α β : Type} (f : α → β) (tasks : List α)
    (sched : List Nat) (j : Nat) (b : β)
    (h : (j, b) ∈ sched.filterMap (fun i => (tasks.get? i).map (fun a => (i, f a)))) :
    (tasks.get? j).map f = some b := by
  rcases List.mem_filterMap.mp h with ⟨i, _, hmap⟩
  obtain ⟨a, ha, heq⟩ := Option.map_eq_some'.mp hmap
  injection heq with h1 h2
  subst h1
  subst h2
  rw [ha]
  rfl

/-- A completed task's pair is in the completion log. -/
theorem worker_pairs_mem_of {α β : Type} (f : α → β) (tasks : List α)
    (sched : List Nat) (i : Nat) (hs : i ∈ sched) :
    ∀ a, tasks.get? i = some a →
      (i, f a) ∈ sched.filterMap (fun j => (tasks.get? j).map (fun a => (j, f a))) := by
  intro a ha
  exact List.mem_filterMap.mpr ⟨i, hs, by rw [ha]; rfl⟩

/-- C2: whatever order the workers complete in, as long as every
submitted index eventually completes, the pool's collected result
sequence lists the tasks' values in submission order: the i-th entry is
the i-th task's value. -/
theorem C2_order_preserved {α β : Type} (f : α → β) (tasks : List α)
    (sched : List Nat) (hall : ∀ i, i < tasks.length → i ∈ sched) :
    worker_pool_run f tasks sched = tasks.map (fun a => some (f a)) := by
  unfold worker_pool_run worker_pool_collect
  apply List.ext_get
  · simp
  · intro i h1 h2
    simp only [List.get_eq_getElem, List.getElem_map, List.getElem_range]
    have hlen : i < tasks.length := by simpa using h2
    have hga : tasks.get? i = some (tasks.get ⟨i, hlen⟩) := List.get?_eq_get hlen
    have hmem := worker_pairs_mem_of f tasks sched i (hall i hlen) _ hga
    have hsat : ∃ x ∈ sched.filterMap (fun j => (tasks.get? j).map (fun a => (j, f a))),
        (fun q => q.1 == i) x = true :=
      ⟨(i, f (tasks.get ⟨i, hlen⟩)), hmem, by simp⟩
    obtain ⟨p, hfind⟩ := Option.isSome_iff_exists.mp (List.find?_isSome.mpr hsat)
    obtain ⟨pj, pb⟩ := p
    have hpj : pj = i := by
      have := List.find?_some hfind
      simpa using this
    subst hpj
    have hmem2 := List.mem_of_find?_eq_some hfind
    have hval := worker_pairs_mem f tasks sched pj pb hmem2
    rw [hga] at hval
    rw [hfind]
    simp only [Option.map_some']
    simp only [Option.map_some'] at hval
    injection hval with hval
    rw [← hval]
    simp [List.get_eq_getElem]

theorem C2_witness :
    (∀ i, i < ([10, 20, 30] : List Nat).length → i ∈ ([2, 0, 1] : List Nat))
  ∧ worker_pool_run (fun x => x * 3) ([10, 20, 30] : List Nat) [2, 0, 1]
      = [some 30, some 60, some 90] :=
  ⟨by decide, by
    have h := C2_order_preserved (fun x => x * 3) ([10, 20, 30] : List Nat)
      [2, 0, 1] (by decide)
    simpa using h⟩

/-- The lengths of the first n clipped chunks sum to min (c * n) t. -/
theorem chunk_sum_aux (c t : Nat) :
    ∀ n, ((List.range n).map (fun i => min c (t - i * c))).sum = min (c * n) t := by
  intro n
  induction n with
  | zero => simp
  | succ m ih =>
    rw [List.range_succ, List.map_append, List.sum_append, ih]
    simp only [List.map_cons, List.map_nil, List.sum_cons, List.sum_nil]
    have h1 : c * (m + 1) = c * m + c := by ring
    have h2 : m * c = c * m := by ring
    omega

/-- Element j of the chunk plan. -/
theorem chunkRanges_get (t c j : Nat) (hj : j < (chunkRanges t c).length) :
    (chunkRanges t c).get ⟨j, hj⟩ = (j * c, min c (t - j * c)) := by
  simp [chunkRanges]

/-- C8: for chunkSize > 0 the plan has at least one chunk even at
totalSize 0; the number of ranges is chunkCount, the ceiling of
totalSize / chunkSize with minimum 1 — characterized by
t ≤ c * chunkCount together with c * (chunkCount - 1) < t for t > 0 —
and the ranges start at offset 0, are contiguous and non-overlapping
(each starts exactly where the previous one ends) and their lengths sum
to exactly totalSize, so they partition the interval from 0 to t. -/
theorem C8_chunk_partition (t c : Nat) (hc : 0 < c) :
    1 ≤ (chunkRanges t c).length
  ∧ (chunkRanges t c).length = chunkCount t c
  ∧ ((chunkRanges t c).map (fun r => r.2)).sum = t
  ∧ (∀ h0 : 0 < (chunkRanges t c).length,
      ((chunkRanges t c).get ⟨0, h0⟩).1 = 0)
  ∧ (∀ j (h : j + 1 < (chunkRanges t c).length),
      ((chunkRanges t c).get ⟨j + 1, h⟩).1
        = ((chunkRanges t c).get ⟨j, Nat.lt_of_succ_lt h⟩).1
          + ((chunkRanges t c).get ⟨j, Nat.lt_of_succ_lt h⟩).2)
  ∧ t ≤ c * chunkCount t c
  ∧ (0 < t → c * (chunkCount t c - 1) < t) := by
  have hlen : (chunkRanges t c).length = chunkCount t c := by
    simp [chunkRanges]
  have hdm := Nat.div_add_mod (t + c - 1) c
  have hmod : (t + c - 1) % c < c := Nat.mod_lt _ hc
  have hcc : t ≤ c * chunkCount t c := by
    rcases Nat.eq_zero_or_pos t with ht | ht
    · subst ht; exact Nat.zero_le _
    · have hq1 : 0 < (t + c - 1) / c := Nat.div_pos (by omega) hc
      have hmax : chunkCount t c = (t + c - 1) / c := by
        unfold chunkCount; omega
      rw [hmax]
      omega
  have hlast : 0 < t → c * (chunkCount t c - 1) < t := by
    intro ht
    have hq1 : 0 < (t + c - 1) / c := Nat.div_pos (by omega) hc
    have hmax : chunkCount t c = (t + c - 1) / c := by
      unfold chunkCount; omega
    rw [hmax]
    have h3 : c * ((t + c - 1) / c - 1) + c = c * ((t + c - 1) / c) := by
      have h4 : ((t + c - 1) / c - 1) + 1 = (t + c - 1) / c := by omega
      calc c * ((t + c - 1) / c - 1) + c
          = c * (((t + c - 1) / c - 1) + 1) := by ring
        _ = c * ((t + c - 1) / c) := by rw [h4]
    omega
  have hsum : ((chunkRanges t c).map (fun r => r.2)).sum = t := by
    have hmm : (chunkRanges t c).map (fun r => r.2)
        = (List.range (chunkCount t c)).map (fun i => min c (t - i * c)) := by
      simp [chunkRanges, List.map_map, Function.comp]
    rw [hmm, chunk_sum_aux]
    omega
  refine ⟨by rw [hlen]; exact le_max_left 1 _, hlen, hsum, ?_, ?_, hcc, hlast⟩
  · intro h0
    rw [chunkRanges_get]
    simp
  · intro j h
    rw [chunkRanges_get, chunkRanges_get]
    dsimp only
    have hl2 : j + 1 < chunkCount t c := by rw [← hlen]; exact h
    rcases Nat.eq_zero_or_pos t with ht | ht
    · have hc1 : chunkCount t c = 1 := by
        unfold chunkCount
        have hz : (t + c - 1) / c = 0 := Nat.div_eq_of_lt (by omega)
        omega
      omega
    · have hq1 : 0 < (t + c - 1) / c := Nat.div_pos (by omega) hc
      have hmax : chunkCount t c = (t + c - 1) / c := by
        unfold chunkCount; omega
      have hle : j + 2 ≤ (t + c - 1) / c := by omega
      have hmul : (j + 2) * c ≤ t + c - 1 := (Nat.le_div_iff_mul_le hc).mp hle
      have e1 : (j + 2) * c = (j + 1) * c + c := by ring
      have e2 : (j + 1) * c = j * c + c := by ring
      omega

theorem C8_witness :
    0 < 2
  ∧ ((chunkRanges 5 2).map (fun r => r.2)).sum = 5
  ∧ (chunkRanges 5 2).length = chunkCount 5 2 :=
  ⟨by decide, (C8_chunk_partition 5 2 (by decide)).2.2.1,
    (C8_chunk_partition 5 2 (by decide)).2.1⟩
